import Mathlib

/-!
Verification of the `dnsupdate` dynamic-DNS updater (src/main.rs) against its
natural-language specification.

The program is embedded shallowly:

* JSON values handled by the `json` crate are modelled by `JsonV`; the crate's
  permissive indexing (`v["k"]`, `v[0]`, returning `Null` on any miss), `len()`,
  `as_str()`, `as_bool()` and `== "A"` comparisons are modelled by `JsonV.get`,
  `JsonV.idx`, `JsonV.lenJ`, `JsonV.as_str`, `JsonV.as_bool`, `JsonV.eqStr`.
* The network is an oracle (`Server`, `YServer`) mapping each request to either
  a transport-level error (`HttpErr`, covering connection failures and bodies
  that fail to read or to parse as JSON — all flowing through the same `?`
  operators in the source) or a response.
* Each per-subdomain loop iteration is a `StepTrace`: the requests it issued,
  the stdout chunks it printed (`print!` emits a chunk without newline,
  `println!` a chunk ending in "\n"), and how it exits (`StepExit`): continue
  to the next subdomain, return `Err` through `?`, or panic via `unwrap`.
* Whole-run behaviour (`CloudflareService.update`, `YDNSService.update`,
  `mainRun`) folds the steps, stopping at the first `Err` or panic, exactly as
  the source's `for` loops, `?` operators and `main`'s `.unwrap()` calls do.

Header-value parsing and HTTP-client construction (reqwest) are modelled as
always succeeding; they act on constant credential data and no claim concerns
them.
-/

namespace Dnsupdate

/-- JSON values as handled by the `json` crate in src/main.rs. -/
inductive JsonV where
  | null
  | bool (b : Bool)
  | num (n : Int)
  | str (s : String)
  | arr (elems : List JsonV)
  | obj (entries : List (String × JsonV))

/-- Object indexing `v["k"]` of the `json` crate: the entry's value when `v` is
an object containing key `k`, otherwise `Null`. -/
def JsonV.get : JsonV → String → JsonV
  | .obj es, k =>
    match es.find? (fun e => e.1 == k) with
    | some e => e.2
    | none => .null
  | _, _ => .null

/-- Array indexing `v[i]` of the `json` crate: the element when in bounds,
otherwise `Null`. -/
def JsonV.idx : JsonV → Nat → JsonV
  | .arr es, i => es.getD i .null
  | _, _ => .null

/-- `JsonValue::len()`: number of elements of an array (or entries of an
object), 0 for every other value. -/
def JsonV.lenJ : JsonV → Nat
  | .arr es => es.length
  | .obj es => es.length
  | _ => 0

/-- `JsonValue::as_str()`: `Some` exactly for string values. -/
def JsonV.as_str : JsonV → Option String
  | .str s => some s
  | _ => none

/-- `JsonValue::as_bool()`: `Some` exactly for boolean values. -/
def JsonV.as_bool : JsonV → Option Bool
  | .bool b => some b
  | _ => none

/-- The `json` crate's `JsonValue == &str` comparison: true exactly for a
string value with equal content. -/
def JsonV.eqStr : JsonV → String → Bool
  | .str s, t => s == t
  | _, _ => false

/-- Transport-level failure of one HTTP call: a connection/send failure, or a
response body that cannot be read or parsed as JSON. In the source all of
these flow through `?` (Cloudflare) or `.unwrap()` (YDNS, IP fetch). -/
inductive HttpErr where
  | connection
  | badBody
deriving DecidableEq

/-- One HTTP request issued by the program, as observable on the wire. -/
inductive Request where
  | getReq (url : String)
  | putReq (url : String) (body : String)
deriving DecidableEq

/-- How one loop iteration ends: fall through to the next subdomain, return
`Err` from `update` via `?`, or panic via `unwrap`. -/
inductive StepExit where
  | next
  | fatal (e : HttpErr)
  | panicMsg (m : String)
deriving DecidableEq

/-- Requests, printed chunks and exit of a single subdomain's iteration. -/
structure StepTrace where
  reqs : List Request
  out : List String
  exit : StepExit
deriving DecidableEq

/-- Result of a whole `update` run (or of `main`): returned `Ok(())`, returned
`Err` (which `main` turns into a panic via `.unwrap()`), or panicked. -/
inductive RunResult where
  | ok
  | err (e : HttpErr)
  | panicked (m : String)
deriving DecidableEq

/-- Requests, printed chunks and result of a whole run. -/
structure Trace where
  reqs : List Request
  out : List String
  result : RunResult
deriving DecidableEq

/-- Oracle answering the Cloudflare-side HTTP calls. `get url` and
`put url body` return the parsed JSON body, or a transport error. -/
structure Server where
  get : String → Except HttpErr JsonV
  put : String → String → Except HttpErr JsonV

/-- Oracle answering the YDNS call: status code of the response, or a
connection failure. (Only `.status()` of the response is ever read.) -/
structure YServer where
  send : String → Except HttpErr Nat

/-- Rust's panic message for `Result::unwrap` on `Err`. -/
def unwrapErrPanic : String := "called Result::unwrap on an Err value"

/-- Rust's panic message for `Option::unwrap` on `None`. -/
def unwrapNonePanic : String := "called Option::unwrap on a None value"

/-- Output of the domain decomposition: `tldextract`'s `subdomain` (here
`label`), `domain` (here `registrable_domain`) and `suffix` (here
`public_suffix`) fields, named as in the specification's data model. -/
structure DecomposedDomain where
  label : Option String
  registrable_domain : String
  public_suffix : String
deriving DecidableEq

/-- Failure of the domain decomposition (unrecognized suffix). -/
inductive DecompositionError where
  | unrecognizedSuffix
deriving DecidableEq

def splitDotsAux : List Char → List Char → List String
  | [], acc => [String.mk acc.reverse]
  | c :: cs, acc =>
    if c = '.' then String.mk acc.reverse :: splitDotsAux cs []
    else splitDotsAux cs (c :: acc)

/-- Split a name into its dot-separated labels. -/
def splitDots (s : String) : List String := splitDotsAux s.data []

/-- Join labels with literal dots (inverse of `splitDots`). -/
def joinLabels : List String → String
  | [] => ""
  | [l] => l
  | l :: ls => l ++ "." ++ joinLabels ls

/-- Walk split points from the longest candidate suffix down, returning the
first split whose suffix the dataset recognizes. -/
def findSplitAux (psl : List (List String)) : List String → List String →
    Option (List String × List String)
  | _, [] => none
  | front, r :: rs =>
    if psl.contains (r :: rs) then some (front, r :: rs)
    else findSplitAux psl (front ++ [r]) rs

/-- Modelled from the spec: the repository delegates domain decomposition to
the external `tldextract` crate, whose code is not part of this repository.
Following §4.1 and the glossary: the public suffix is the longest suffix of
the name's label list recognized in the public-suffix dataset `psl`, the
registrable domain is the label immediately below it, and the label is the
remaining part (absent for apex names). Fails with `DecompositionError` when
no proper suffix of the name is recognized. -/
def decompose (psl : List (List String)) (s : String) :
    Except DecompositionError DecomposedDomain :=
  match splitDots s with
  | [] => .error .unrecognizedSuffix
  | l :: ls =>
    match findSplitAux psl [l] ls with
    | none => .error .unrecognizedSuffix
    | some (front, sfx) =>
      match front.reverse with
      | [] => .error .unrecognizedSuffix
      | reg :: preRev =>
        .ok ⟨match preRev with
             | [] => none
             | _ => some (joinLabels preRev.reverse),
             reg, joinLabels sfx⟩

/-- The chunk printed by `print!("[Cloudflare] Update {subdomain}: ")`. -/
def cfTag (d : String) : String := "[Cloudflare] Update " ++ d ++ ": "

/-- The chunk printed by `print!("[YDNS] Update {subdomain}: ")`. -/
def ydnsTag (d : String) : String := "[YDNS] Update " ++ d ++ ": "

/-- Zone-listing URL built by the source:
`.../zones?name={domain}.{suffix}&status=active&per_page=1&page=1`. -/
def cfZoneUrl (tld : DecomposedDomain) : String :=
  "https://api.cloudflare.com/client/v4/zones?name=" ++ tld.registrable_domain
    ++ "." ++ tld.public_suffix ++ "&status=active&per_page=1&page=1"

/-- The source's `sub` binding: `"." + label` when a label is present, else
the empty string. -/
def cfSub (tld : DecomposedDomain) : String :=
  match tld.label with
  | some a => "." ++ a
  | none => ""

/-- The name string the source interpolates as `{sub}{domain}.{suffix}` in
both the record-listing URL and the update body. -/
def cfRecordName (tld : DecomposedDomain) : String :=
  cfSub tld ++ tld.registrable_domain ++ "." ++ tld.public_suffix

/-- Record-listing URL built by the source:
`.../zones/{zone_id}/dns_records?name={sub}{domain}.{suffix}`. -/
def cfRecordUrl (zone_id : String) (tld : DecomposedDomain) : String :=
  "https://api.cloudflare.com/client/v4/zones/" ++ zone_id
    ++ "/dns_records?name=" ++ cfRecordName tld

/-- Record-update URL built by the source:
`.../zones/{zone_id}/dns_records/{record_id}`. -/
def cfPutUrl (zone_id record_id : String) : String :=
  "https://api.cloudflare.com/client/v4/zones/" ++ zone_id
    ++ "/dns_records/" ++ record_id

/-- Update body with the type field left as a parameter, for stating what
type value a body carries. -/
def cfBodyT (record_id ip nm ty : String) (proxied : Bool) : String :=
  "\x7b\"id\":\"" ++ record_id ++ "\",\"content\":\"" ++ ip
    ++ "\",\"type\":\"" ++ ty ++ "\",\"name\":\"" ++ nm
    ++ "\",\"proxied\":" ++ (if proxied then "true" else "false") ++ "\x7d"

/-- The exact update body the source builds:
`{"id":"{record_id}","content":"{ip}","type":"A","name":"{sub}{domain}.{suffix}","proxied":{proxied}}`
— the type field is the literal `A`. -/
def cfBody (record_id ip nm : String) (proxied : Bool) : String :=
  cfBodyT record_id ip nm "A" proxied

/-- The type-gate condition of the source:
`!(type == "A") && !(type == "AAAA")` — `true` means the record is skipped. -/
def typeGateBlocks (r0 : JsonV) : Bool :=
  !(r0.get "type").eqStr "A" && !(r0.get "type").eqStr "AAAA"

/-- Third step of the Cloudflare iteration: the PUT update call and the
outcome line (src/main.rs lines 86-112). -/
def cfUpdateStage (srv : Server) (ip zone_id record_id nm : String)
    (proxied : Bool) : StepTrace :=
  let url := cfPutUrl zone_id record_id
  let body := cfBody record_id ip nm proxied
  match srv.put url body with
  | .error e => ⟨[.putReq url body], [], .fatal e⟩
  | .ok ur =>
    match (ur.get "success").as_bool with
    | none => ⟨[.putReq url body], [], .panicMsg unwrapNonePanic⟩
    | some true => ⟨[.putReq url body], ["Success\n"], .next⟩
    | some false => ⟨[.putReq url body], ["Fail\n"], .next⟩

/-- Second step of the Cloudflare iteration: the record lookup, the emptiness
check, the type gate, and the `proxied`/`id` field reads (lines 60-83). -/
def cfRecordStage (srv : Server) (ip : String) (tld : DecomposedDomain)
    (zone_id : String) : StepTrace :=
  let url := cfRecordUrl zone_id tld
  match srv.get url with
  | .error e => ⟨[.getReq url], [], .fatal e⟩
  | .ok rr =>
    if (rr.get "result").lenJ < 1 then ⟨[.getReq url], [], .next⟩
    else
      let r0 := (rr.get "result").idx 0
      if typeGateBlocks r0 then ⟨[.getReq url], [], .next⟩
      else
        match (r0.get "proxied").as_bool with
        | none => ⟨[.getReq url], [], .panicMsg unwrapNonePanic⟩
        | some proxied =>
          match (r0.get "id").as_str with
          | none => ⟨[.getReq url], [], .panicMsg unwrapNonePanic⟩
          | some record_id =>
            let t := cfUpdateStage srv ip zone_id record_id
              (cfRecordName tld) proxied
            ⟨.getReq url :: t.reqs, t.out, t.exit⟩

/-- First step of the Cloudflare iteration after decomposition: the progress
tag is printed, then the zone lookup runs, its result-set emptiness is
checked and the zone id is read (lines 30-52). -/
def cfZoneStage (srv : Server) (ip d : String) (tld : DecomposedDomain) :
    StepTrace :=
  let url := cfZoneUrl tld
  match srv.get url with
  | .error e => ⟨[.getReq url], [cfTag d], .fatal e⟩
  | .ok zr =>
    if (zr.get "result").lenJ < 1 then ⟨[.getReq url], [cfTag d], .next⟩
    else
      match (((zr.get "result").idx 0).get "id").as_str with
      | none => ⟨[.getReq url], [cfTag d], .panicMsg unwrapNonePanic⟩
      | some zone_id =>
        let t := cfRecordStage srv ip tld zone_id
        ⟨.getReq url :: t.reqs, cfTag d :: t.out, t.exit⟩

/-- One full iteration of the Cloudflare `for subdomain in self.domains` loop:
`TldExtractor::extract(..).unwrap()` first (a decomposition failure panics
before anything is printed or sent), then the three HTTP stages. -/
def cfStep (srv : Server) (psl : List (List String)) (ip d : String) :
    StepTrace :=
  match decompose psl d with
  | .error _ => ⟨[], [], .panicMsg unwrapErrPanic⟩
  | .ok tld => cfZoneStage srv ip d tld

/-- The Cloudflare `for` loop over the configured subdomains: a `.next` exit
continues, a `?` error returns `Err` at once, a panic aborts at once. -/
def cfUpdate (srv : Server) (psl : List (List String)) (ip : String) :
    List String → Trace
  | [] => ⟨[], [], .ok⟩
  | d :: ds =>
    match (cfStep srv psl ip d).exit with
    | .next =>
      ⟨(cfStep srv psl ip d).reqs ++ (cfUpdate srv psl ip ds).reqs,
       (cfStep srv psl ip d).out ++ (cfUpdate srv psl ip ds).out,
       (cfUpdate srv psl ip ds).result⟩
    | .fatal e => ⟨(cfStep srv psl ip d).reqs, (cfStep srv psl ip d).out, .err e⟩
    | .panicMsg m =>
      ⟨(cfStep srv psl ip d).reqs, (cfStep srv psl ip d).out, .panicked m⟩

/-- The `cloudflare` section of the configuration. -/
structure CloudflareService where
  api_key : String
  account_email : String
  domains : List String

/-- `CloudflareService::update`: runs the per-subdomain loop. The credentials
only feed the authentication headers, which the `Server` oracle absorbs. -/
def CloudflareService.update (s : CloudflareService) (srv : Server)
    (psl : List (List String)) (ip : String) : Trace :=
  cfUpdate srv psl ip s.domains

/-- The YDNS update URL built by the source:
`https://ydns.io/api/v1/update/?host={subdomain}&ip={ip}`. -/
def ydnsUrl (subdomain ip : String) : String :=
  "https://ydns.io/api/v1/update/?host=" ++ subdomain ++ "&ip=" ++ ip

/-- One iteration of the YDNS loop (lines 128-148): print the tag, send one
authenticated GET, `.unwrap()` the transport result (panicking on failure),
then print `Success` exactly for `StatusCode::OK` (200) and `Fail` for every
other status. -/
def ydnsStep (ysrv : YServer) (ip d : String) : StepTrace :=
  let url := ydnsUrl d ip
  match ysrv.send url with
  | .error _ => ⟨[.getReq url], [ydnsTag d], .panicMsg unwrapErrPanic⟩
  | .ok status =>
    ⟨[.getReq url],
     [ydnsTag d, (if status = 200 then "Success" else "Fail") ++ "\n"], .next⟩

/-- The YDNS `for` loop over the configured subdomains. -/
def ydnsUpdate (ysrv : YServer) (ip : String) : List String → Trace
  | [] => ⟨[], [], .ok⟩
  | d :: ds =>
    match (ydnsStep ysrv ip d).exit with
    | .next =>
      ⟨(ydnsStep ysrv ip d).reqs ++ (ydnsUpdate ysrv ip ds).reqs,
       (ydnsStep ysrv ip d).out ++ (ydnsUpdate ysrv ip ds).out,
       (ydnsUpdate ysrv ip ds).result⟩
    | .fatal e => ⟨(ydnsStep ysrv ip d).reqs, (ydnsStep ysrv ip d).out, .err e⟩
    | .panicMsg m =>
      ⟨(ydnsStep ysrv ip d).reqs, (ydnsStep ysrv ip d).out, .panicked m⟩

/-- The `ydns` section of the configuration. -/
structure YDNSService where
  user : String
  password : String
  domains : List String

/-- `YDNSService::update`: runs the per-subdomain loop; `user`/`password`
only feed HTTP basic auth, which the `YServer` oracle absorbs. -/
def YDNSService.update (s : YDNSService) (ysrv : YServer) (ip : String) :
    Trace :=
  ydnsUpdate ysrv ip s.domains

/-- The parsed configuration file. -/
structure ServiceConfig where
  cloudflare : CloudflareService
  ydns : YDNSService

/-- The tail of `main` after IP and configuration are obtained:
`config.cloudflare.update(&my_ip).unwrap(); config.ydns.update(&my_ip).unwrap();`
— an `Err` from the Cloudflare run is unwrapped into a panic, so the YDNS
backend runs only when the Cloudflare run returned `Ok`. -/
def mainRun (csrv : Server) (ysrv : YServer) (psl : List (List String))
    (cfg : ServiceConfig) (ip : String) : Trace :=
  match (cfg.cloudflare.update csrv psl ip).result with
  | .ok =>
    ⟨(cfg.cloudflare.update csrv psl ip).reqs
       ++ (cfg.ydns.update ysrv ip).reqs,
     (cfg.cloudflare.update csrv psl ip).out ++ (cfg.ydns.update ysrv ip).out,
     (cfg.ydns.update ysrv ip).result⟩
  | r => ⟨(cfg.cloudflare.update csrv psl ip).reqs,
          (cfg.cloudflare.update csrv psl ip).out, r⟩

theorem mk_append (l₁ l₂ : List Char) :
    String.mk l₁ ++ String.mk l₂ = String.mk (l₁ ++ l₂) := rfl

theorem splitDotsAux_ne_nil (cs : List Char) : ∀ acc, splitDotsAux cs acc ≠ [] := by
  induction cs with
  | nil => intro acc; simp [splitDotsAux]
  | cons c cs ih =>
    intro acc
    by_cases hc : c = '.'
    · simp [splitDotsAux, hc]
    · simpa [splitDotsAux, hc] using ih (c :: acc)

theorem joinLabels_cons (a : String) (rest : List String) (h : rest ≠ []) :
    joinLabels (a :: rest) = a ++ "." ++ joinLabels rest := by
  match rest with
  | [] => exact absurd rfl h
  | b :: bs => rfl

theorem joinLabels_splitDotsAux (cs : List Char) :
    ∀ acc, joinLabels (splitDotsAux cs acc) = String.mk (acc.reverse ++ cs) := by
  induction cs with
  | nil => intro acc; simp [splitDotsAux, joinLabels]
  | cons c cs ih =>
    intro acc
    by_cases hc : c = '.'
    · subst hc
      rw [splitDotsAux, if_pos rfl,
        joinLabels_cons _ _ (splitDotsAux_ne_nil cs []), ih []]
      show String.mk acc.reverse ++ String.mk ['.'] ++ String.mk ([] ++ cs) = _
      rw [mk_append, mk_append]
      simp
    · rw [splitDotsAux, if_neg hc, ih (c :: acc)]
      simp

theorem joinLabels_splitDots (s : String) : joinLabels (splitDots s) = s := by
  rw [splitDots, joinLabels_splitDotsAux]
  rfl

theorem joinLabels_append (l₁ l₂ : List String) (h₁ : l₁ ≠ []) (h₂ : l₂ ≠ []) :
    joinLabels (l₁ ++ l₂) = joinLabels l₁ ++ "." ++ joinLabels l₂ := by
  induction l₁ with
  | nil => exact absurd rfl h₁
  | cons a rest ih =>
    match rest with
    | [] =>
      rw [show (a :: ([] : List String)) ++ l₂ = a :: l₂ from rfl,
        joinLabels_cons a l₂ h₂, joinLabels]
    | b :: bs =>
      rw [show (a :: b :: bs) ++ l₂ = a :: (b :: bs ++ l₂) from rfl,
        joinLabels_cons a (b :: bs ++ l₂) (by simp),
        ih (by simp),
        joinLabels_cons a (b :: bs) (by simp)]
      simp only [String.append_assoc]

theorem findSplitAux_spec (psl : List (List String)) :
    ∀ rest front f sfx, front ≠ [] →
      findSplitAux psl front rest = some (f, sfx) →
      f ++ sfx = front ++ rest ∧ f ≠ [] ∧ sfx ≠ [] ∧ psl.contains sfx := by
  intro rest
  induction rest with
  | nil => intro front f sfx _ h; simp [findSplitAux] at h
  | cons r rs ih =>
    intro front f sfx hfront h
    rw [findSplitAux] at h
    by_cases hc : psl.contains (r :: rs)
    · rw [if_pos hc] at h
      obtain ⟨rfl, rfl⟩ : front = f ∧ r :: rs = sfx := by
        simpa using h
      exact ⟨rfl, hfront, by simp, hc⟩
    · rw [if_neg hc] at h
      obtain ⟨hfs, hf, hs, hmem⟩ := ih (front ++ [r]) f sfx (by simp) h
      exact ⟨by simpa using hfs, hf, hs, hmem⟩

/-- The reassembly the specification's §8 property speaks about:
`label + "." + registrable_domain + "." + public_suffix`, dropping the label
part when the label is absent. -/
def reassemble (d : DecomposedDomain) : String :=
  match d.label with
  | some l => l ++ "." ++ d.registrable_domain ++ "." ++ d.public_suffix
  | none => d.registrable_domain ++ "." ++ d.public_suffix

theorem decompose_roundtrip (psl : List (List String)) (s : String)
    (d : DecomposedDomain) (h : decompose psl s = .ok d) :
    reassemble d = s := by
  rw [decompose] at h
  split at h
  · cases h
  rename_i l ls hs
  split at h
  · cases h
  rename_i pr front sfx hf
  split at h
  · cases h
  rename_i reg preRev hrev
  obtain ⟨hfs, -, hsfx, -⟩ := findSplitAux_spec psl ls [l] front sfx (by simp) hf
  have hfront : front = preRev.reverse ++ [reg] := by
    rw [← List.reverse_reverse front, hrev]
    simp
  have hjoin : joinLabels (front ++ sfx) = s := by
    rw [hfs, show ([l] ++ ls : List String) = l :: ls from rfl, ← hs,
      joinLabels_splitDots]
  cases preRev with
  | nil =>
    cases h
    show joinLabels sfx |> fun js => reassemble ⟨none, reg, js⟩ = s
    simp only [reassemble]
    rw [← hjoin, hfront]
    rw [show (([] : List String).reverse ++ [reg]) ++ sfx = reg :: sfx by simp,
      joinLabels_cons reg sfx hsfx]
  | cons p ps =>
    cases h
    show reassemble ⟨some (joinLabels (p :: ps).reverse), reg, joinLabels sfx⟩ = s
    simp only [reassemble]
    rw [← hjoin, hfront, List.append_assoc,
      joinLabels_append (p :: ps).reverse ([reg] ++ sfx) (by simp) (by simp),
      show ([reg] ++ sfx : List String) = reg :: sfx from rfl,
      joinLabels_cons reg sfx hsfx]
    simp only [String.append_assoc]

theorem cfUpdate_cons_next (srv : Server) (psl : List (List String))
    (ip d : String) (ds : List String) (h : (cfStep srv psl ip d).exit = .next) :
    cfUpdate srv psl ip (d :: ds) =
      ⟨(cfStep srv psl ip d).reqs ++ (cfUpdate srv psl ip ds).reqs,
       (cfStep srv psl ip d).out ++ (cfUpdate srv psl ip ds).out,
       (cfUpdate srv psl ip ds).result⟩ := by
  simp only [cfUpdate, h]

theorem cfUpdate_cons_fatal (srv : Server) (psl : List (List String))
    (ip d : String) (ds : List String) (e : HttpErr)
    (h : (cfStep srv psl ip d).exit = .fatal e) :
    cfUpdate srv psl ip (d :: ds) =
      ⟨(cfStep srv psl ip d).reqs, (cfStep srv psl ip d).out, .err e⟩ := by
  simp only [cfUpdate, h]

theorem cfUpdate_cons_panic (srv : Server) (psl : List (List String))
    (ip d : String) (ds : List String) (m : String)
    (h : (cfStep srv psl ip d).exit = .panicMsg m) :
    cfUpdate srv psl ip (d :: ds) =
      ⟨(cfStep srv psl ip d).reqs, (cfStep srv psl ip d).out, .panicked m⟩ := by
  simp only [cfUpdate, h]

theorem cfStep_decompose_err (srv : Server) (psl : List (List String))
    (ip d : String) (err : DecompositionError)
    (h : decompose psl d = .error err) :
    cfStep srv psl ip d = ⟨[], [], .panicMsg unwrapErrPanic⟩ := by
  simp only [cfStep, h]

theorem cfStep_decompose_ok (srv : Server) (psl : List (List String))
    (ip d : String) (tld : DecomposedDomain) (h : decompose psl d = .ok tld) :
    cfStep srv psl ip d = cfZoneStage srv ip d tld := by
  simp only [cfStep, h]

theorem cfZoneStage_fatal (srv : Server) (ip d : String)
    (tld : DecomposedDomain) (e : HttpErr)
    (h : srv.get (cfZoneUrl tld) = .error e) :
    cfZoneStage srv ip d tld = ⟨[.getReq (cfZoneUrl tld)], [cfTag d], .fatal e⟩ := by
  simp only [cfZoneStage, h]

theorem cfZoneStage_empty (srv : Server) (ip d : String)
    (tld : DecomposedDomain) (zr : JsonV)
    (h : srv.get (cfZoneUrl tld) = .ok zr)
    (hlen : (zr.get "result").lenJ < 1) :
    cfZoneStage srv ip d tld = ⟨[.getReq (cfZoneUrl tld)], [cfTag d], .next⟩ := by
  simp only [cfZoneStage, h]
  rw [if_pos hlen]

theorem cfZoneStage_noId (srv : Server) (ip d : String)
    (tld : DecomposedDomain) (zr : JsonV)
    (h : srv.get (cfZoneUrl tld) = .ok zr)
    (hlen : ¬ (zr.get "result").lenJ < 1)
    (hid : (((zr.get "result").idx 0).get "id").as_str = none) :
    cfZoneStage srv ip d tld =
      ⟨[.getReq (cfZoneUrl tld)], [cfTag d], .panicMsg unwrapNonePanic⟩ := by
  simp only [cfZoneStage, h, hid]
  rw [if_neg hlen]

theorem cfZoneStage_found (srv : Server) (ip d : String)
    (tld : DecomposedDomain) (zr : JsonV) (zone_id : String)
    (h : srv.get (cfZoneUrl tld) = .ok zr)
    (hlen : ¬ (zr.get "result").lenJ < 1)
    (hid : (((zr.get "result").idx 0).get "id").as_str = some zone_id) :
    cfZoneStage srv ip d tld =
      ⟨.getReq (cfZoneUrl tld) :: (cfRecordStage srv ip tld zone_id).reqs,
       cfTag d :: (cfRecordStage srv ip tld zone_id).out,
       (cfRecordStage srv ip tld zone_id).exit⟩ := by
  simp only [cfZoneStage, h, hid]
  rw [if_neg hlen]

theorem cfRecordStage_fatal (srv : Server) (ip : String)
    (tld : DecomposedDomain) (zone_id : String) (e : HttpErr)
    (h : srv.get (cfRecordUrl zone_id tld) = .error e) :
    cfRecordStage srv ip tld zone_id =
      ⟨[.getReq (cfRecordUrl zone_id tld)], [], .fatal e⟩ := by
  simp only [cfRecordStage, h]

theorem cfRecordStage_empty (srv : Server) (ip : String)
    (tld : DecomposedDomain) (zone_id : String) (rr : JsonV)
    (h : srv.get (cfRecordUrl zone_id tld) = .ok rr)
    (hlen : (rr.get "result").lenJ < 1) :
    cfRecordStage srv ip tld zone_id =
      ⟨[.getReq (cfRecordUrl zone_id tld)], [], .next⟩ := by
  simp only [cfRecordStage, h]
  rw [if_pos hlen]

theorem cfRecordStage_gate (srv : Server) (ip : String)
    (tld : DecomposedDomain) (zone_id : String) (rr : JsonV)
    (h : srv.get (cfRecordUrl zone_id tld) = .ok rr)
    (hlen : ¬ (rr.get "result").lenJ < 1)
    (hgate : typeGateBlocks ((rr.get "result").idx 0) = true) :
    cfRecordStage srv ip tld zone_id =
      ⟨[.getReq (cfRecordUrl zone_id tld)], [], .next⟩ := by
  simp only [cfRecordStage, h]
  rw [if_neg hlen, if_pos hgate]

theorem cfRecordStage_noProxied (srv : Server) (ip : String)
    (tld : DecomposedDomain) (zone_id : String) (rr : JsonV)
    (h : srv.get (cfRecordUrl zone_id tld) = .ok rr)
    (hlen : ¬ (rr.get "result").lenJ < 1)
    (hgate : typeGateBlocks ((rr.get "result").idx 0) = false)
    (hpr : (((rr.get "result").idx 0).get "proxied").as_bool = none) :
    cfRecordStage srv ip tld zone_id =
      ⟨[.getReq (cfRecordUrl zone_id tld)], [], .panicMsg unwrapNonePanic⟩ := by
  simp only [cfRecordStage, h, hpr]
  rw [if_neg hlen, if_neg (by simp [hgate])]

theorem cfRecordStage_noId (srv : Server) (ip : String)
    (tld : DecomposedDomain) (zone_id : String) (rr : JsonV) (p : Bool)
    (h : srv.get (cfRecordUrl zone_id tld) = .ok rr)
    (hlen : ¬ (rr.get "result").lenJ < 1)
    (hgate : typeGateBlocks ((rr.get "result").idx 0) = false)
    (hpr : (((rr.get "result").idx 0).get "proxied").as_bool = some p)
    (hid : (((rr.get "result").idx 0).get "id").as_str = none) :
    cfRecordStage srv ip tld zone_id =
      ⟨[.getReq (cfRecordUrl zone_id tld)], [], .panicMsg unwrapNonePanic⟩ := by
  simp only [cfRecordStage, h, hpr, hid]
  rw [if_neg hlen, if_neg (by simp [hgate])]

theorem cfRecordStage_found (srv : Server) (ip : String)
    (tld : DecomposedDomain) (zone_id : String) (rr : JsonV) (p : Bool)
    (record_id : String)
    (h : srv.get (cfRecordUrl zone_id tld) = .ok rr)
    (hlen : ¬ (rr.get "result").lenJ < 1)
    (hgate : typeGateBlocks ((rr.get "result").idx 0) = false)
    (hpr : (((rr.get "result").idx 0).get "proxied").as_bool = some p)
    (hid : (((rr.get "result").idx 0).get "id").as_str = some record_id) :
    cfRecordStage srv ip tld zone_id =
      ⟨.getReq (cfRecordUrl zone_id tld)
         :: (cfUpdateStage srv ip zone_id record_id (cfRecordName tld) p).reqs,
       (cfUpdateStage srv ip zone_id record_id (cfRecordName tld) p).out,
       (cfUpdateStage srv ip zone_id record_id (cfRecordName tld) p).exit⟩ := by
  simp only [cfRecordStage, h, hpr, hid]
  rw [if_neg hlen, if_neg (by simp [hgate])]

theorem cfUpdateStage_fatal (srv : Server) (ip zone_id record_id nm : String)
    (p : Bool) (e : HttpErr)
    (h : srv.put (cfPutUrl zone_id record_id) (cfBody record_id ip nm p)
      = .error e) :
    cfUpdateStage srv ip zone_id record_id nm p =
      ⟨[.putReq (cfPutUrl zone_id record_id) (cfBody record_id ip nm p)],
       [], .fatal e⟩ := by
  simp only [cfUpdateStage, h]

theorem cfUpdateStage_noSuccess (srv : Server)
    (ip zone_id record_id nm : String) (p : Bool) (ur : JsonV)
    (h : srv.put (cfPutUrl zone_id record_id) (cfBody record_id ip nm p)
      = .ok ur)
    (hs : (ur.get "success").as_bool = none) :
    cfUpdateStage srv ip zone_id record_id nm p =
      ⟨[.putReq (cfPutUrl zone_id record_id) (cfBody record_id ip nm p)],
       [], .panicMsg unwrapNonePanic⟩ := by
  simp only [cfUpdateStage, h, hs]

theorem cfUpdateStage_done (srv : Server) (ip zone_id record_id nm : String)
    (p : Bool) (ur : JsonV) (b : Bool)
    (h : srv.put (cfPutUrl zone_id record_id) (cfBody record_id ip nm p)
      = .ok ur)
    (hs : (ur.get "success").as_bool = some b) :
    cfUpdateStage srv ip zone_id record_id nm p =
      ⟨[.putReq (cfPutUrl zone_id record_id) (cfBody record_id ip nm p)],
       [(if b then "Success" else "Fail") ++ "\n"], .next⟩ := by
  cases b <;> simp only [cfUpdateStage, h, hs] <;> rfl

theorem cfUpdateStage_reqs (srv : Server) (ip zone_id record_id nm : String)
    (p : Bool) :
    (cfUpdateStage srv ip zone_id record_id nm p).reqs =
      [.putReq (cfPutUrl zone_id record_id) (cfBody record_id ip nm p)] := by
  rcases h : srv.put (cfPutUrl zone_id record_id) (cfBody record_id ip nm p)
    with e | ur
  · rw [cfUpdateStage_fatal srv ip zone_id record_id nm p e h]
  · rcases hs : (ur.get "success").as_bool with - | b
    · rw [cfUpdateStage_noSuccess srv ip zone_id record_id nm p ur h hs]
    · rw [cfUpdateStage_done srv ip zone_id record_id nm p ur b h hs]

theorem ydnsStep_fatal (ysrv : YServer) (ip d : String) (e : HttpErr)
    (h : ysrv.send (ydnsUrl d ip) = .error e) :
    ydnsStep ysrv ip d =
      ⟨[.getReq (ydnsUrl d ip)], [ydnsTag d], .panicMsg unwrapErrPanic⟩ := by
  simp only [ydnsStep, h]

theorem ydnsStep_status (ysrv : YServer) (ip d : String) (status : Nat)
    (h : ysrv.send (ydnsUrl d ip) = .ok status) :
    ydnsStep ysrv ip d =
      ⟨[.getReq (ydnsUrl d ip)],
       [ydnsTag d, (if status = 200 then "Success" else "Fail") ++ "\n"],
       .next⟩ := by
  simp only [ydnsStep, h]

theorem ydnsUpdate_cons_panic (ysrv : YServer) (ip d : String)
    (ds : List String) (m : String)
    (h : (ydnsStep ysrv ip d).exit = .panicMsg m) :
    ydnsUpdate ysrv ip (d :: ds) =
      ⟨(ydnsStep ysrv ip d).reqs, (ydnsStep ysrv ip d).out, .panicked m⟩ := by
  simp only [ydnsUpdate, h]

/-- Public-suffix dataset for the concrete scenarios (recognizes `com`, `org`,
`co.uk` and `uk`). -/
def pslDemo : List (List String) := [["com"], ["org"], ["co", "uk"], ["uk"]]

/-- Decomposition of the apex subdomain `example.com` (no label). -/
def tldExCom : DecomposedDomain := ⟨none, "example", "com"⟩

/-- A type-`A`, proxied record whose own name matches the lookup name. -/
def recObjOk : JsonV :=
  .obj [("id", .str "rid1"), ("type", .str "A"), ("proxied", .bool true),
        ("name", .str "example.com")]

/-- Lookup response with one result, `recObjOk`. -/
def respOk : JsonV := .obj [("result", .arr [recObjOk])]

/-- Lookup response with an empty result set. -/
def respEmpty : JsonV := .obj [("result", .arr [])]

/-- Server: every lookup finds `recObjOk`, every update reports success. -/
def srvOk : Server :=
  ⟨fun _ => .ok respOk, fun _ _ => .ok (.obj [("success", .bool true)])⟩

/-- A record whose stored `name` differs from the name the code constructs. -/
def recObjName : JsonV :=
  .obj [("id", .str "rid1"), ("type", .str "A"), ("proxied", .bool true),
        ("name", .str "other.example.com")]

/-- Server finding `recObjName`, updates reporting success. -/
def srvName : Server :=
  ⟨fun _ => .ok (.obj [("result", .arr [recObjName])]),
   fun _ _ => .ok (.obj [("success", .bool true)])⟩

/-- An `AAAA` record (passes the type gate). -/
def recObjV6 : JsonV :=
  .obj [("id", .str "rid2"), ("type", .str "AAAA"), ("proxied", .bool false),
        ("name", .str "example.com")]

/-- Server finding `recObjV6`, updates reporting success. -/
def srvV6 : Server :=
  ⟨fun _ => .ok (.obj [("result", .arr [recObjV6])]),
   fun _ _ => .ok (.obj [("success", .bool true)])⟩

/-- Server whose zone lookup returns an empty result set. -/
def srvZoneEmpty : Server := ⟨fun _ => .ok respEmpty, fun _ _ => .ok .null⟩

/-- Server finding the zone but no record: the record-lookup URL gets an empty
result set. -/
def srvRecEmpty : Server :=
  ⟨fun url => if url = cfZoneUrl tldExCom then .ok respOk else .ok respEmpty,
   fun _ _ => .ok .null⟩

/-- A `CNAME` record (blocked by the type gate). -/
def recObjCname : JsonV :=
  .obj [("id", .str "rid3"), ("type", .str "CNAME"), ("proxied", .bool false),
        ("name", .str "example.com")]

/-- Server finding `recObjCname`. -/
def srvCname : Server :=
  ⟨fun _ => .ok (.obj [("result", .arr [recObjCname])]),
   fun _ _ => .ok .null⟩

/-- Server whose update call reports `success: false`. -/
def srvReject : Server :=
  ⟨fun _ => .ok respOk, fun _ _ => .ok (.obj [("success", .bool false)])⟩

/-- Server for which every call fails at the transport level. -/
def srvDown : Server :=
  ⟨fun _ => .error .connection, fun _ _ => .error .connection⟩

/-- A type-`A` record lacking the `proxied` field. -/
def recObjNoProx : JsonV :=
  .obj [("id", .str "rid4"), ("type", .str "A"), ("name", .str "example.com")]

/-- Server finding `recObjNoProx`. -/
def srvNoProx : Server :=
  ⟨fun _ => .ok (.obj [("result", .arr [recObjNoProx])]),
   fun _ _ => .ok .null⟩

/-- YDNS server answering 200. -/
def ysrv200 : YServer := ⟨fun _ => .ok 200⟩

/-- YDNS server answering 204 (a 2xx status that is not 200). -/
def ysrv204 : YServer := ⟨fun _ => .ok 204⟩

/-- YDNS server answering 401. -/
def ysrv401 : YServer := ⟨fun _ => .ok 401⟩

/-- YDNS server whose call fails at the transport level. -/
def ysrvDown : YServer := ⟨fun _ => .error .connection⟩

/-- C1 (amended): for every Provider A subdomain whose record lookup succeeds
and passes the type gate, the update body sets `content` to the resolved IP
and `type` to `A`, carries the record's existing `proxied` value verbatim,
and carries as `name` the constructed lookup name `cfRecordName tld` — the
same string used in the record-lookup query. The record's own `name` field is
never read, so the existing name is preserved only insofar as it equals that
lookup name (see the counterexample). -/
theorem C1_update_body (srv : Server) (psl : List (List String))
    (ip d : String) (tld : DecomposedDomain) (zr rr : JsonV)
    (zone_id record_id : String) (p : Bool)
    (hd : decompose psl d = .ok tld)
    (hz : srv.get (cfZoneUrl tld) = .ok zr)
    (hzlen : ¬ (zr.get "result").lenJ < 1)
    (hzid : (((zr.get "result").idx 0).get "id").as_str = some zone_id)
    (hr : srv.get (cfRecordUrl zone_id tld) = .ok rr)
    (hrlen : ¬ (rr.get "result").lenJ < 1)
    (hgate : typeGateBlocks ((rr.get "result").idx 0) = false)
    (hpr : (((rr.get "result").idx 0).get "proxied").as_bool = some p)
    (hid : (((rr.get "result").idx 0).get "id").as_str = some record_id) :
    (cfStep srv psl ip d).reqs =
      [.getReq (cfZoneUrl tld), .getReq (cfRecordUrl zone_id tld),
       .putReq (cfPutUrl zone_id record_id)
         (cfBody record_id ip (cfRecordName tld) p)] := by
  rw [cfStep_decompose_ok srv psl ip d tld hd,
    cfZoneStage_found srv ip d tld zr zone_id hz hzlen hzid,
    cfRecordStage_found srv ip tld zone_id rr p record_id hr hrlen hgate hpr
      hid, cfUpdateStage_reqs]

/-- C1 witness: a concrete run through `srvOk` issues exactly the three
requests, the update body carrying the record's `proxied = true` and the
constructed name. -/
theorem C1_update_body_witness :
    (cfStep srvOk pslDemo "1.2.3.4" "example.com").reqs =
      [.getReq (cfZoneUrl tldExCom), .getReq (cfRecordUrl "rid1" tldExCom),
       .putReq (cfPutUrl "rid1" "rid1")
         (cfBody "rid1" "1.2.3.4" (cfRecordName tldExCom) true)] :=
  C1_update_body srvOk pslDemo "1.2.3.4" "example.com" tldExCom respOk respOk
    "rid1" "rid1" true rfl rfl (by decide) rfl rfl (by decide) rfl rfl rfl

/-- C1 is false as stated: the record's existing `name` field is
`other.example.com`, but the update body sent carries the constructed name
`example.com`, which differs from the body that would preserve the record's
name. -/
theorem C1_counterexample :
    (cfStep srvName pslDemo "9.9.9.9" "example.com").reqs =
      [.getReq (cfZoneUrl tldExCom), .getReq (cfRecordUrl "rid1" tldExCom),
       .putReq (cfPutUrl "rid1" "rid1")
         (cfBody "rid1" "9.9.9.9" "example.com" true)]
    ∧ recObjName.get "name" = .str "other.example.com"
    ∧ cfBody "rid1" "9.9.9.9" "example.com" true ≠
        cfBody "rid1" "9.9.9.9" "other.example.com" true :=
  ⟨rfl, rfl, by decide⟩

/-- C2 (amended): the type field carried by every Provider A update request is
the literal `A`, regardless of the record's existing type; it equals the
existing type only for `A` records, while `AAAA` records (also admitted by
the gate) are sent with type `A`. -/
theorem C2_type_always_A (srv : Server) (psl : List (List String))
    (ip d : String) (tld : DecomposedDomain) (zr rr : JsonV)
    (zone_id record_id : String) (p : Bool)
    (hd : decompose psl d = .ok tld)
    (hz : srv.get (cfZoneUrl tld) = .ok zr)
    (hzlen : ¬ (zr.get "result").lenJ < 1)
    (hzid : (((zr.get "result").idx 0).get "id").as_str = some zone_id)
    (hr : srv.get (cfRecordUrl zone_id tld) = .ok rr)
    (hrlen : ¬ (rr.get "result").lenJ < 1)
    (hgate : typeGateBlocks ((rr.get "result").idx 0) = false)
    (hpr : (((rr.get "result").idx 0).get "proxied").as_bool = some p)
    (hid : (((rr.get "result").idx 0).get "id").as_str = some record_id) :
    (cfStep srv psl ip d).reqs.getLast? =
      some (.putReq (cfPutUrl zone_id record_id)
        (cfBodyT record_id ip (cfRecordName tld) "A" p)) := by
  rw [cfStep_decompose_ok srv psl ip d tld hd,
    cfZoneStage_found srv ip d tld zr zone_id hz hzlen hzid,
    cfRecordStage_found srv ip tld zone_id rr p record_id hr hrlen hgate hpr
      hid, cfUpdateStage_reqs]
  rfl

/-- C2 witness: the concrete `srvOk` run's final request is the update, whose
body carries type `A`. -/
theorem C2_type_always_A_witness :
    (cfStep srvOk pslDemo "1.2.3.4" "example.com").reqs.getLast? =
      some (.putReq (cfPutUrl "rid1" "rid1")
        (cfBodyT "rid1" "1.2.3.4" (cfRecordName tldExCom) "A" true)) :=
  C2_type_always_A srvOk pslDemo "1.2.3.4" "example.com" tldExCom respOk
    respOk "rid1" "rid1" true rfl rfl (by decide) rfl rfl (by decide) rfl rfl
    rfl

/-- C2 is false as stated: an `AAAA` record passes the gate, yet the update
request carries type `A`, not the record's existing type `AAAA`. -/
theorem C2_counterexample :
    (cfStep srvV6 pslDemo "9.9.9.9" "example.com").reqs =
      [.getReq (cfZoneUrl tldExCom), .getReq (cfRecordUrl "rid2" tldExCom),
       .putReq (cfPutUrl "rid2" "rid2")
         (cfBodyT "rid2" "9.9.9.9" "example.com" "A" false)]
    ∧ recObjV6.get "type" = .str "AAAA"
    ∧ cfBodyT "rid2" "9.9.9.9" "example.com" "A" false ≠
        cfBodyT "rid2" "9.9.9.9" "example.com" "AAAA" false :=
  ⟨rfl, rfl, by decide⟩

/-- C3: the three skip paths of Provider A. An empty zone lookup issues no
record lookup and no update; an empty record lookup, or a record whose type
is neither `A` nor `AAAA`, issues no update. In each case the iteration ends
with `.next` (outcome Skipped: no outcome chunk is printed) and the loop
equation shows processing continuing with the remaining subdomains. -/
theorem C3_skip_paths :
    (∀ (srv : Server) (psl : List (List String)) (ip d : String)
        (ds : List String) (tld : DecomposedDomain) (zr : JsonV),
      decompose psl d = .ok tld →
      srv.get (cfZoneUrl tld) = .ok zr →
      (zr.get "result").lenJ < 1 →
      cfStep srv psl ip d = ⟨[.getReq (cfZoneUrl tld)], [cfTag d], .next⟩ ∧
      cfUpdate srv psl ip (d :: ds) =
        ⟨.getReq (cfZoneUrl tld) :: (cfUpdate srv psl ip ds).reqs,
         cfTag d :: (cfUpdate srv psl ip ds).out,
         (cfUpdate srv psl ip ds).result⟩)
    ∧ (∀ (srv : Server) (psl : List (List String)) (ip d : String)
        (ds : List String) (tld : DecomposedDomain) (zr : JsonV)
        (zone_id : String) (rr : JsonV),
      decompose psl d = .ok tld →
      srv.get (cfZoneUrl tld) = .ok zr →
      ¬ (zr.get "result").lenJ < 1 →
      (((zr.get "result").idx 0).get "id").as_str = some zone_id →
      srv.get (cfRecordUrl zone_id tld) = .ok rr →
      (rr.get "result").lenJ < 1 →
      cfStep srv psl ip d =
        ⟨[.getReq (cfZoneUrl tld), .getReq (cfRecordUrl zone_id tld)],
         [cfTag d], .next⟩ ∧
      cfUpdate srv psl ip (d :: ds) =
        ⟨.getReq (cfZoneUrl tld) :: .getReq (cfRecordUrl zone_id tld)
           :: (cfUpdate srv psl ip ds).reqs,
         cfTag d :: (cfUpdate srv psl ip ds).out,
         (cfUpdate srv psl ip ds).result⟩)
    ∧ (∀ (srv : Server) (psl : List (List String)) (ip d : String)
        (ds : List String) (tld : DecomposedDomain) (zr : JsonV)
        (zone_id : String) (rr : JsonV),
      decompose psl d = .ok tld →
      srv.get (cfZoneUrl tld) = .ok zr →
      ¬ (zr.get "result").lenJ < 1 →
      (((zr.get "result").idx 0).get "id").as_str = some zone_id →
      srv.get (cfRecordUrl zone_id tld) = .ok rr →
      ¬ (rr.get "result").lenJ < 1 →
      typeGateBlocks ((rr.get "result").idx 0) = true →
      cfStep srv psl ip d =
        ⟨[.getReq (cfZoneUrl tld), .getReq (cfRecordUrl zone_id tld)],
         [cfTag d], .next⟩ ∧
      cfUpdate srv psl ip (d :: ds) =
        ⟨.getReq (cfZoneUrl tld) :: .getReq (cfRecordUrl zone_id tld)
           :: (cfUpdate srv psl ip ds).reqs,
         cfTag d :: (cfUpdate srv psl ip ds).out,
         (cfUpdate srv psl ip ds).result⟩) := by
  refine ⟨?_, ?_, ?_⟩
  · intro srv psl ip d ds tld zr hd hz hlen
    have hstep : cfStep srv psl ip d =
        ⟨[.getReq (cfZoneUrl tld)], [cfTag d], .next⟩ := by
      rw [cfStep_decompose_ok srv psl ip d tld hd,
        cfZoneStage_empty srv ip d tld zr hz hlen]
    refine ⟨hstep, ?_⟩
    rw [cfUpdate_cons_next srv psl ip d ds (by rw [hstep]), hstep]
    rfl
  · intro srv psl ip d ds tld zr zone_id rr hd hz hzlen hzid hr hrlen
    have hstep : cfStep srv psl ip d =
        ⟨[.getReq (cfZoneUrl tld), .getReq (cfRecordUrl zone_id tld)],
         [cfTag d], .next⟩ := by
      rw [cfStep_decompose_ok srv psl ip d tld hd,
        cfZoneStage_found srv ip d tld zr zone_id hz hzlen hzid,
        cfRecordStage_empty srv ip tld zone_id rr hr hrlen]
    refine ⟨hstep, ?_⟩
    rw [cfUpdate_cons_next srv psl ip d ds (by rw [hstep]), hstep]
    rfl
  · intro srv psl ip d ds tld zr zone_id rr hd hz hzlen hzid hr hrlen hgate
    have hstep : cfStep srv psl ip d =
        ⟨[.getReq (cfZoneUrl tld), .getReq (cfRecordUrl zone_id tld)],
         [cfTag d], .next⟩ := by
      rw [cfStep_decompose_ok srv psl ip d tld hd,
        cfZoneStage_found srv ip d tld zr zone_id hz hzlen hzid,
        cfRecordStage_gate srv ip tld zone_id rr hr hrlen hgate]
    refine ⟨hstep, ?_⟩
    rw [cfUpdate_cons_next srv psl ip d ds (by rw [hstep]), hstep]
    rfl

/-- C3 witness: scenario 3 of the spec — a found record of type `CNAME` makes
the iteration skip after exactly the two lookups, and the loop moves on. -/
theorem C3_skip_paths_witness :
    cfStep srvCname pslDemo "1.2.3.4" "example.com" =
      ⟨[.getReq (cfZoneUrl tldExCom), .getReq (cfRecordUrl "rid3" tldExCom)],
       [cfTag "example.com"], .next⟩ ∧
    cfUpdate srvCname pslDemo "1.2.3.4" ["example.com"] =
      ⟨.getReq (cfZoneUrl tldExCom) :: .getReq (cfRecordUrl "rid3" tldExCom)
         :: (cfUpdate srvCname pslDemo "1.2.3.4" []).reqs,
       cfTag "example.com" :: (cfUpdate srvCname pslDemo "1.2.3.4" []).out,
       (cfUpdate srvCname pslDemo "1.2.3.4" []).result⟩ :=
  C3_skip_paths.2.2 srvCname pslDemo "1.2.3.4" "example.com" [] tldExCom
    (.obj [("result", .arr [recObjCname])]) "rid3"
    (.obj [("result", .arr [recObjCname])]) rfl rfl (by decide) rfl rfl
    (by decide) rfl

/-- C4: a transport-level failure in any of Provider A's three calls makes the
whole `update` return `Err` at once — the remaining subdomains are not
attempted — and `main` then never reaches the second backend; a transport
failure of Provider B's single call panics, likewise ending the run. -/
theorem C4_transport_fatal :
    (∀ (srv : Server) (psl : List (List String)) (ip d : String)
        (ds : List String) (tld : DecomposedDomain) (e : HttpErr),
      decompose psl d = .ok tld →
      srv.get (cfZoneUrl tld) = .error e →
      cfUpdate srv psl ip (d :: ds) =
        ⟨[.getReq (cfZoneUrl tld)], [cfTag d], .err e⟩)
    ∧ (∀ (srv : Server) (psl : List (List String)) (ip d : String)
        (ds : List String) (tld : DecomposedDomain) (zr : JsonV)
        (zone_id : String) (e : HttpErr),
      decompose psl d = .ok tld →
      srv.get (cfZoneUrl tld) = .ok zr →
      ¬ (zr.get "result").lenJ < 1 →
      (((zr.get "result").idx 0).get "id").as_str = some zone_id →
      srv.get (cfRecordUrl zone_id tld) = .error e →
      cfUpdate srv psl ip (d :: ds) =
        ⟨[.getReq (cfZoneUrl tld), .getReq (cfRecordUrl zone_id tld)],
         [cfTag d], .err e⟩)
    ∧ (∀ (srv : Server) (psl : List (List String)) (ip d : String)
        (ds : List String) (tld : DecomposedDomain) (zr rr : JsonV)
        (zone_id record_id : String) (p : Bool) (e : HttpErr),
      decompose psl d = .ok tld →
      srv.get (cfZoneUrl tld) = .ok zr →
      ¬ (zr.get "result").lenJ < 1 →
      (((zr.get "result").idx 0).get "id").as_str = some zone_id →
      srv.get (cfRecordUrl zone_id tld) = .ok rr →
      ¬ (rr.get "result").lenJ < 1 →
      typeGateBlocks ((rr.get "result").idx 0) = false →
      (((rr.get "result").idx 0).get "proxied").as_bool = some p →
      (((rr.get "result").idx 0).get "id").as_str = some record_id →
      srv.put (cfPutUrl zone_id record_id)
        (cfBody record_id ip (cfRecordName tld) p) = .error e →
      cfUpdate srv psl ip (d :: ds) =
        ⟨[.getReq (cfZoneUrl tld), .getReq (cfRecordUrl zone_id tld),
          .putReq (cfPutUrl zone_id record_id)
            (cfBody record_id ip (cfRecordName tld) p)],
         [cfTag d], .err e⟩)
    ∧ (∀ (csrv : Server) (ysrv : YServer) (psl : List (List String))
        (cfg : ServiceConfig) (ip : String) (e : HttpErr),
      (cfg.cloudflare.update csrv psl ip).result = .err e →
      mainRun csrv ysrv psl cfg ip =
        ⟨(cfg.cloudflare.update csrv psl ip).reqs,
         (cfg.cloudflare.update csrv psl ip).out, .err e⟩)
    ∧ (∀ (ysrv : YServer) (ip d : String) (ds : List String) (e : HttpErr),
      ysrv.send (ydnsUrl d ip) = .error e →
      ydnsUpdate ysrv ip (d :: ds) =
        ⟨[.getReq (ydnsUrl d ip)], [ydnsTag d],
         .panicked unwrapErrPanic⟩) := by
  refine ⟨?_, ?_, ?_, ?_, ?_⟩
  · intro srv psl ip d ds tld e hd hz
    have hstep : cfStep srv psl ip d =
        ⟨[.getReq (cfZoneUrl tld)], [cfTag d], .fatal e⟩ := by
      rw [cfStep_decompose_ok srv psl ip d tld hd,
        cfZoneStage_fatal srv ip d tld e hz]
    rw [cfUpdate_cons_fatal srv psl ip d ds e (by rw [hstep]), hstep]
  · intro srv psl ip d ds tld zr zone_id e hd hz hzlen hzid hr
    have hstep : cfStep srv psl ip d =
        ⟨[.getReq (cfZoneUrl tld), .getReq (cfRecordUrl zone_id tld)],
         [cfTag d], .fatal e⟩ := by
      rw [cfStep_decompose_ok srv psl ip d tld hd,
        cfZoneStage_found srv ip d tld zr zone_id hz hzlen hzid,
        cfRecordStage_fatal srv ip tld zone_id e hr]
    rw [cfUpdate_cons_fatal srv psl ip d ds e (by rw [hstep]), hstep]
  · intro srv psl ip d ds tld zr rr zone_id record_id p e hd hz hzlen hzid hr
      hrlen hgate hpr hid hput
    have hstep : cfStep srv psl ip d =
        ⟨[.getReq (cfZoneUrl tld), .getReq (cfRecordUrl zone_id tld),
          .putReq (cfPutUrl zone_id record_id)
            (cfBody record_id ip (cfRecordName tld) p)],
         [cfTag d], .fatal e⟩ := by
      rw [cfStep_decompose_ok srv psl ip d tld hd,
        cfZoneStage_found srv ip d tld zr zone_id hz hzlen hzid,
        cfRecordStage_found srv ip tld zone_id rr p record_id hr hrlen hgate
          hpr hid,
        cfUpdateStage_fatal srv ip zone_id record_id (cfRecordName tld) p e
          hput]
    rw [cfUpdate_cons_fatal srv psl ip d ds e (by rw [hstep]), hstep]
  · intro csrv ysrv psl cfg ip e h
    simp only [mainRun, h]
  · intro ysrv ip d ds e h
    have hstep := ydnsStep_fatal ysrv ip d e h
    rw [ydnsUpdate_cons_panic ysrv ip d ds unwrapErrPanic (by rw [hstep]),
      hstep]

/-- C4 witness: with every call failing at the transport level, the run on two
configured subdomains stops after the very first request of the first one. -/
theorem C4_transport_fatal_witness :
    cfUpdate srvDown pslDemo "1.2.3.4" ["example.com", "www.example.com"] =
      ⟨[.getReq (cfZoneUrl tldExCom)], [cfTag "example.com"],
       .err .connection⟩ :=
  C4_transport_fatal.1 srvDown pslDemo "1.2.3.4" "example.com"
    ["www.example.com"] tldExCom .connection rfl rfl

/-- C5: Provider B's outcome is `Success` exactly when the HTTP status is 200
— any other status (including other 2xx codes) prints `Fail` — and exactly
one request is issued (no retry). -/
theorem C5_ydns_outcome (ysrv : YServer) (ip d : String) (status : Nat)
    (h : ysrv.send (ydnsUrl d ip) = .ok status) :
    ydnsStep ysrv ip d =
      ⟨[.getReq (ydnsUrl d ip)],
       [ydnsTag d, (if status = 200 then "Success" else "Fail") ++ "\n"],
       .next⟩
    ∧ ((ydnsStep ysrv ip d).out = [ydnsTag d, "Success\n"] ↔ status = 200) := by
  refine ⟨ydnsStep_status ysrv ip d status h, ?_⟩
  rw [ydnsStep_status ysrv ip d status h]
  by_cases h2 : status = 200
  · simp [h2]
  · simp [h2]

/-- C5 witness: status 204 — a 2xx code other than 200 — prints `Fail` after
one single request. -/
theorem C5_ydns_outcome_witness :
    ydnsStep ysrv204 "1.2.3.4" "h.test" =
      ⟨[.getReq (ydnsUrl "h.test" "1.2.3.4")],
       [ydnsTag "h.test", "Fail\n"], .next⟩
    ∧ ((ydnsStep ysrv204 "1.2.3.4" "h.test").out =
        [ydnsTag "h.test", "Success\n"] ↔ 204 = 200) :=
  C5_ydns_outcome ysrv204 "1.2.3.4" "h.test" 204 rfl

/-- C6: an update response that parses but reports `success: false` prints
`Fail` for that subdomain, the iteration exits with `.next`, and the loop
equation shows the run continuing with the remaining subdomains. -/
theorem C6_reject_contained (srv : Server) (psl : List (List String))
    (ip d : String) (ds : List String) (tld : DecomposedDomain)
    (zr rr ur : JsonV) (zone_id record_id : String) (p : Bool)
    (hd : decompose psl d = .ok tld)
    (hz : srv.get (cfZoneUrl tld) = .ok zr)
    (hzlen : ¬ (zr.get "result").lenJ < 1)
    (hzid : (((zr.get "result").idx 0).get "id").as_str = some zone_id)
    (hr : srv.get (cfRecordUrl zone_id tld) = .ok rr)
    (hrlen : ¬ (rr.get "result").lenJ < 1)
    (hgate : typeGateBlocks ((rr.get "result").idx 0) = false)
    (hpr : (((rr.get "result").idx 0).get "proxied").as_bool = some p)
    (hid : (((rr.get "result").idx 0).get "id").as_str = some record_id)
    (hput : srv.put (cfPutUrl zone_id record_id)
      (cfBody record_id ip (cfRecordName tld) p) = .ok ur)
    (hsf : (ur.get "success").as_bool = some false) :
    cfStep srv psl ip d =
      ⟨[.getReq (cfZoneUrl tld), .getReq (cfRecordUrl zone_id tld),
        .putReq (cfPutUrl zone_id record_id)
          (cfBody record_id ip (cfRecordName tld) p)],
       [cfTag d, "Fail\n"], .next⟩
    ∧ cfUpdate srv psl ip (d :: ds) =
      ⟨(cfStep srv psl ip d).reqs ++ (cfUpdate srv psl ip ds).reqs,
       (cfStep srv psl ip d).out ++ (cfUpdate srv psl ip ds).out,
       (cfUpdate srv psl ip ds).result⟩ := by
  have hstep : cfStep srv psl ip d =
      ⟨[.getReq (cfZoneUrl tld), .getReq (cfRecordUrl zone_id tld),
        .putReq (cfPutUrl zone_id record_id)
          (cfBody record_id ip (cfRecordName tld) p)],
       [cfTag d, "Fail\n"], .next⟩ := by
    rw [cfStep_decompose_ok srv psl ip d tld hd,
      cfZoneStage_found srv ip d tld zr zone_id hz hzlen hzid,
      cfRecordStage_found srv ip tld zone_id rr p record_id hr hrlen hgate
        hpr hid,
      cfUpdateStage_done srv ip zone_id record_id (cfRecordName tld) p ur
        false hput hsf]
    rfl
  exact ⟨hstep, cfUpdate_cons_next srv psl ip d ds (by rw [hstep])⟩

/-- C6 witness: the concrete rejecting server yields the `Fail` line and the
loop equation for a one-element tail. -/
theorem C6_reject_contained_witness :
    cfStep srvReject pslDemo "1.2.3.4" "example.com" =
      ⟨[.getReq (cfZoneUrl tldExCom), .getReq (cfRecordUrl "rid1" tldExCom),
        .putReq (cfPutUrl "rid1" "rid1")
          (cfBody "rid1" "1.2.3.4" (cfRecordName tldExCom) true)],
       [cfTag "example.com", "Fail\n"], .next⟩
    ∧ cfUpdate srvReject pslDemo "1.2.3.4" ["example.com", "www.example.com"] =
      ⟨(cfStep srvReject pslDemo "1.2.3.4" "example.com").reqs
         ++ (cfUpdate srvReject pslDemo "1.2.3.4" ["www.example.com"]).reqs,
       (cfStep srvReject pslDemo "1.2.3.4" "example.com").out
         ++ (cfUpdate srvReject pslDemo "1.2.3.4" ["www.example.com"]).out,
       (cfUpdate srvReject pslDemo "1.2.3.4" ["www.example.com"]).result⟩ :=
  C6_reject_contained srvReject pslDemo "1.2.3.4" "example.com"
    ["www.example.com"] tldExCom respOk respOk (.obj [("success", .bool false)])
    "rid1" "rid1" true rfl rfl (by decide) rfl rfl (by decide) rfl rfl rfl rfl
    rfl

/-- C7: at `home.example.co.uk` the decomposition is as the spec's scenario 1
says and its reassembly yields the subdomain back (the claim's round-trip,
held in general by `decompose_roundtrip`) — but the name string the code
interpolates as `{sub}{domain}.{suffix}` with `sub = "." + label` places the
dot on the wrong side of the label, producing `.homeexample.co.uk` instead of
the full subdomain. This name is used in both the record-lookup query and the
update body. -/
theorem C7_name_construction_bug :
    decompose pslDemo "home.example.co.uk" =
      .ok ⟨some "home", "example", "co.uk"⟩
    ∧ reassemble ⟨some "home", "example", "co.uk"⟩ = "home.example.co.uk"
    ∧ cfRecordName ⟨some "home", "example", "co.uk"⟩ = ".homeexample.co.uk"
    ∧ ".homeexample.co.uk" ≠ "home.example.co.uk"
    ∧ cfRecordUrl "zone9" ⟨some "home", "example", "co.uk"⟩ =
        "https://api.cloudflare.com/client/v4/zones/zone9/dns_records?name=.homeexample.co.uk" :=
  ⟨rfl, rfl, rfl, by decide, rfl⟩

/-- C8: when decomposition fails, the `unwrap` panics before anything is
printed or any request is sent, the Cloudflare loop aborts without touching
the remaining subdomains, and `main` never reaches the YDNS backend. -/
theorem C8_decompose_fatal (srv : Server) (ysrv : YServer)
    (psl : List (List String)) (ip d ak em u pw : String)
    (ds yds : List String) (err : DecompositionError)
    (hd : decompose psl d = .error err) :
    cfStep srv psl ip d = ⟨[], [], .panicMsg unwrapErrPanic⟩
    ∧ cfUpdate srv psl ip (d :: ds) = ⟨[], [], .panicked unwrapErrPanic⟩
    ∧ mainRun srv ysrv psl ⟨⟨ak, em, d :: ds⟩, ⟨u, pw, yds⟩⟩ ip =
        ⟨[], [], .panicked unwrapErrPanic⟩ := by
  have h1 := cfStep_decompose_err srv psl ip d err hd
  have h2 : cfUpdate srv psl ip (d :: ds) =
      ⟨[], [], .panicked unwrapErrPanic⟩ := by
    rw [cfUpdate_cons_panic srv psl ip d ds unwrapErrPanic (by rw [h1]), h1]
  refine ⟨h1, h2, ?_⟩
  simp only [mainRun, CloudflareService.update, h2]

/-- C8 witness: `localhost` has no recognized suffix in the demo dataset; the
whole run aborts with no requests and no output. -/
theorem C8_decompose_fatal_witness :
    cfStep srvOk pslDemo "1.2.3.4" "localhost" =
      ⟨[], [], .panicMsg unwrapErrPanic⟩
    ∧ cfUpdate srvOk pslDemo "1.2.3.4" ["localhost", "example.com"] =
        ⟨[], [], .panicked unwrapErrPanic⟩
    ∧ mainRun srvOk ysrv200 pslDemo
        ⟨⟨"key", "mail", ["localhost", "example.com"]⟩,
         ⟨"u", "p", ["h.test"]⟩⟩ "1.2.3.4" =
        ⟨[], [], .panicked unwrapErrPanic⟩ :=
  C8_decompose_fatal srvOk ysrv200 pslDemo "1.2.3.4" "localhost" "key" "mail"
    "u" "p" ["example.com"] ["h.test"] .unrecognizedSuffix rfl

/-- C9 is false as stated: a skipped subdomain (empty zone lookup) does
produce output — the dangling chunk `[Cloudflare] Update example.com: `
printed by `print!` before the lookup, with no outcome and no newline. -/
theorem C9_counterexample :
    cfStep srvZoneEmpty pslDemo "1.2.3.4" "example.com" =
      ⟨[.getReq (cfZoneUrl tldExCom)], ["[Cloudflare] Update example.com: "],
       .next⟩
    ∧ (["[Cloudflare] Update example.com: "] : List String) ≠ [] :=
  ⟨rfl, by decide⟩

theorem cfUpdateStage_out (srv : Server) (ip zone_id record_id nm : String)
    (p : Bool) :
    (cfUpdateStage srv ip zone_id record_id nm p).out = []
    ∨ (cfUpdateStage srv ip zone_id record_id nm p).out = ["Success\n"]
    ∨ (cfUpdateStage srv ip zone_id record_id nm p).out = ["Fail\n"] := by
  rcases h : srv.put (cfPutUrl zone_id record_id) (cfBody record_id ip nm p)
    with e | ur
  · rw [cfUpdateStage_fatal srv ip zone_id record_id nm p e h]
    left; rfl
  · rcases hs : (ur.get "success").as_bool with - | b
    · rw [cfUpdateStage_noSuccess srv ip zone_id record_id nm p ur h hs]
      left; rfl
    · rw [cfUpdateStage_done srv ip zone_id record_id nm p ur b h hs]
      cases b
      · right; right; rfl
      · right; left; rfl

theorem cfRecordStage_out (srv : Server) (ip : String)
    (tld : DecomposedDomain) (zone_id : String) :
    (cfRecordStage srv ip tld zone_id).out = []
    ∨ (cfRecordStage srv ip tld zone_id).out = ["Success\n"]
    ∨ (cfRecordStage srv ip tld zone_id).out = ["Fail\n"] := by
  rcases h : srv.get (cfRecordUrl zone_id tld) with e | rr
  · rw [cfRecordStage_fatal srv ip tld zone_id e h]; left; rfl
  · by_cases hlen : (rr.get "result").lenJ < 1
    · rw [cfRecordStage_empty srv ip tld zone_id rr h hlen]; left; rfl
    · rcases hgate : typeGateBlocks ((rr.get "result").idx 0) with - | -
      · rcases hpr : (((rr.get "result").idx 0).get "proxied").as_bool
          with - | p
        · rw [cfRecordStage_noProxied srv ip tld zone_id rr h hlen hgate hpr]
          left; rfl
        · rcases hid : (((rr.get "result").idx 0).get "id").as_str
            with - | record_id
          · rw [cfRecordStage_noId srv ip tld zone_id rr p h hlen hgate hpr
              hid]
            left; rfl
          · rw [cfRecordStage_found srv ip tld zone_id rr p record_id h hlen
              hgate hpr hid]
            exact cfUpdateStage_out srv ip zone_id record_id
              (cfRecordName tld) p
      · rw [cfRecordStage_gate srv ip tld zone_id rr h hlen hgate]; left; rfl

/-- C9 (amended): per subdomain, the output is one of four shapes — nothing
(only when decomposition panicked before the `print!`), the dangling tag
alone (the skip paths and mid-iteration aborts), or the tag followed by one
completed `Success`/`Fail` line; whenever the iteration falls through to the
next subdomain its output is non-empty, so a skipped subdomain still emits
its dangling tag. The YDNS side always emits its tag, followed by a completed
outcome line unless the send panicked. -/
theorem C9_output_shape (srv : Server) (ysrv : YServer)
    (psl : List (List String)) (ip d : String) :
    ((cfStep srv psl ip d).out = []
      ∨ (cfStep srv psl ip d).out = [cfTag d]
      ∨ (cfStep srv psl ip d).out = [cfTag d, "Success\n"]
      ∨ (cfStep srv psl ip d).out = [cfTag d, "Fail\n"])
    ∧ ((cfStep srv psl ip d).exit = .next → (cfStep srv psl ip d).out ≠ [])
    ∧ ((ydnsStep ysrv ip d).out = [ydnsTag d, "Success\n"]
      ∨ (ydnsStep ysrv ip d).out = [ydnsTag d, "Fail\n"]
      ∨ ((ydnsStep ysrv ip d).out = [ydnsTag d]
          ∧ (ydnsStep ysrv ip d).exit = .panicMsg unwrapErrPanic)) := by
  have hcf : ((cfStep srv psl ip d).out = []
        ∧ (cfStep srv psl ip d).exit = .panicMsg unwrapErrPanic)
      ∨ (cfStep srv psl ip d).out = [cfTag d]
      ∨ (cfStep srv psl ip d).out = [cfTag d, "Success\n"]
      ∨ (cfStep srv psl ip d).out = [cfTag d, "Fail\n"] := by
    rcases hd : decompose psl d with err | tld
    · rw [cfStep_decompose_err srv psl ip d err hd]
      exact .inl ⟨rfl, rfl⟩
    · rw [cfStep_decompose_ok srv psl ip d tld hd]
      rcases hz : srv.get (cfZoneUrl tld) with e | zr
      · rw [cfZoneStage_fatal srv ip d tld e hz]
        exact .inr (.inl rfl)
      · by_cases hlen : (zr.get "result").lenJ < 1
        · rw [cfZoneStage_empty srv ip d tld zr hz hlen]
          exact .inr (.inl rfl)
        · rcases hzid : (((zr.get "result").idx 0).get "id").as_str
            with - | zone_id
          · rw [cfZoneStage_noId srv ip d tld zr hz hlen hzid]
            exact .inr (.inl rfl)
          · rw [cfZoneStage_found srv ip d tld zr zone_id hz hlen hzid]
            rcases cfRecordStage_out srv ip tld zone_id with h1 | h1 | h1 <;>
              simp [h1]
  refine ⟨?_, ?_, ?_⟩
  · rcases hcf with ⟨h1, -⟩ | h1 | h1 | h1
    · exact .inl h1
    · exact .inr (.inl h1)
    · exact .inr (.inr (.inl h1))
    · exact .inr (.inr (.inr h1))
  · rcases hcf with ⟨h1, h2⟩ | h1 | h1 | h1
    · intro hx
      rw [hx] at h2
      cases h2
    · intro hx; rw [h1]; simp
    · intro hx; rw [h1]; simp
    · intro hx; rw [h1]; simp
  · rcases hy : ysrv.send (ydnsUrl d ip) with e | status
    · rw [ydnsStep_fatal ysrv ip d e hy]
      exact .inr (.inr ⟨rfl, rfl⟩)
    · rw [ydnsStep_status ysrv ip d status hy]
      by_cases h2 : status = 200
      · simp [h2]
      · simp [h2]

/-- C9 amended-claim witness at concrete servers: the skip run emits exactly
the dangling tag and a 200-status YDNS run one completed line. -/
theorem C9_output_shape_witness :
    ((cfStep srvZoneEmpty pslDemo "1.2.3.4" "example.com").out = []
      ∨ (cfStep srvZoneEmpty pslDemo "1.2.3.4" "example.com").out =
          [cfTag "example.com"]
      ∨ (cfStep srvZoneEmpty pslDemo "1.2.3.4" "example.com").out =
          [cfTag "example.com", "Success\n"]
      ∨ (cfStep srvZoneEmpty pslDemo "1.2.3.4" "example.com").out =
          [cfTag "example.com", "Fail\n"])
    ∧ ((cfStep srvZoneEmpty pslDemo "1.2.3.4" "example.com").exit = .next →
        (cfStep srvZoneEmpty pslDemo "1.2.3.4" "example.com").out ≠ [])
    ∧ ((ydnsStep ysrv200 "1.2.3.4" "example.com").out =
          [ydnsTag "example.com", "Success\n"]
      ∨ (ydnsStep ysrv200 "1.2.3.4" "example.com").out =
          [ydnsTag "example.com", "Fail\n"]
      ∨ ((ydnsStep ysrv200 "1.2.3.4" "example.com").out =
            [ydnsTag "example.com"]
          ∧ (ydnsStep ysrv200 "1.2.3.4" "example.com").exit =
              .panicMsg unwrapErrPanic)) :=
  C9_output_shape srvZoneEmpty ysrv200 pslDemo "1.2.3.4" "example.com"

/-- C10: the unchecked `unwrap` calls on JSON field conversions panic — and
abort the whole run — whenever the zone id is not a string, the matched
record (having passed the type gate) lacks a boolean `proxied`, the record id
is not a string, or the update response lacks a boolean `success`. -/
theorem C10_unwrap_panics :
    (∀ (srv : Server) (psl : List (List String)) (ip d : String)
        (ds : List String) (tld : DecomposedDomain) (zr : JsonV),
      decompose psl d = .ok tld →
      srv.get (cfZoneUrl tld) = .ok zr →
      ¬ (zr.get "result").lenJ < 1 →
      (((zr.get "result").idx 0).get "id").as_str = none →
      (cfStep srv psl ip d).exit = .panicMsg unwrapNonePanic
        ∧ (cfUpdate srv psl ip (d :: ds)).result = .panicked unwrapNonePanic)
    ∧ (∀ (srv : Server) (psl : List (List String)) (ip d : String)
        (ds : List String) (tld : DecomposedDomain) (zr rr : JsonV)
        (zone_id : String),
      decompose psl d = .ok tld →
      srv.get (cfZoneUrl tld) = .ok zr →
      ¬ (zr.get "result").lenJ < 1 →
      (((zr.get "result").idx 0).get "id").as_str = some zone_id →
      srv.get (cfRecordUrl zone_id tld) = .ok rr →
      ¬ (rr.get "result").lenJ < 1 →
      typeGateBlocks ((rr.get "result").idx 0) = false →
      (((rr.get "result").idx 0).get "proxied").as_bool = none →
      (cfStep srv psl ip d).exit = .panicMsg unwrapNonePanic
        ∧ (cfUpdate srv psl ip (d :: ds)).result = .panicked unwrapNonePanic)
    ∧ (∀ (srv : Server) (psl : List (List String)) (ip d : String)
        (ds : List String) (tld : DecomposedDomain) (zr rr : JsonV)
        (zone_id : String) (p : Bool),
      decompose psl d = .ok tld →
      srv.get (cfZoneUrl tld) = .ok zr →
      ¬ (zr.get "result").lenJ < 1 →
      (((zr.get "result").idx 0).get "id").as_str = some zone_id →
      srv.get (cfRecordUrl zone_id tld) = .ok rr →
      ¬ (rr.get "result").lenJ < 1 →
      typeGateBlocks ((rr.get "result").idx 0) = false →
      (((rr.get "result").idx 0).get "proxied").as_bool = some p →
      (((rr.get "result").idx 0).get "id").as_str = none →
      (cfStep srv psl ip d).exit = .panicMsg unwrapNonePanic
        ∧ (cfUpdate srv psl ip (d :: ds)).result = .panicked unwrapNonePanic)
    ∧ (∀ (srv : Server) (psl : List (List String)) (ip d : String)
        (ds : List String) (tld : DecomposedDomain) (zr rr ur : JsonV)
        (zone_id record_id : String) (p : Bool),
      decompose psl d = .ok tld →
      srv.get (cfZoneUrl tld) = .ok zr →
      ¬ (zr.get "result").lenJ < 1 →
      (((zr.get "result").idx 0).get "id").as_str = some zone_id →
      srv.get (cfRecordUrl zone_id tld) = .ok rr →
      ¬ (rr.get "result").lenJ < 1 →
      typeGateBlocks ((rr.get "result").idx 0) = false →
      (((rr.get "result").idx 0).get "proxied").as_bool = some p →
      (((rr.get "result").idx 0).get "id").as_str = some record_id →
      srv.put (cfPutUrl zone_id record_id)
        (cfBody record_id ip (cfRecordName tld) p) = .ok ur →
      (ur.get "success").as_bool = none →
      (cfStep srv psl ip d).exit = .panicMsg unwrapNonePanic
        ∧ (cfUpdate srv psl ip (d :: ds)).result =
            .panicked unwrapNonePanic) := by
  refine ⟨?_, ?_, ?_, ?_⟩
  · intro srv psl ip d ds tld zr hd hz hzlen hzid
    have hstep : cfStep srv psl ip d =
        ⟨[.getReq (cfZoneUrl tld)], [cfTag d], .panicMsg unwrapNonePanic⟩ := by
      rw [cfStep_decompose_ok srv psl ip d tld hd,
        cfZoneStage_noId srv ip d tld zr hz hzlen hzid]
    exact ⟨by rw [hstep],
      by rw [cfUpdate_cons_panic srv psl ip d ds unwrapNonePanic
        (by rw [hstep])]⟩
  · intro srv psl ip d ds tld zr rr zone_id hd hz hzlen hzid hr hrlen hgate
      hpr
    have hstep : cfStep srv psl ip d =
        ⟨[.getReq (cfZoneUrl tld), .getReq (cfRecordUrl zone_id tld)],
         [cfTag d], .panicMsg unwrapNonePanic⟩ := by
      rw [cfStep_decompose_ok srv psl ip d tld hd,
        cfZoneStage_found srv ip d tld zr zone_id hz hzlen hzid,
        cfRecordStage_noProxied srv ip tld zone_id rr hr hrlen hgate hpr]
    exact ⟨by rw [hstep],
      by rw [cfUpdate_cons_panic srv psl ip d ds unwrapNonePanic
        (by rw [hstep])]⟩
  · intro srv psl ip d ds tld zr rr zone_id p hd hz hzlen hzid hr hrlen hgate
      hpr hid
    have hstep : cfStep srv psl ip d =
        ⟨[.getReq (cfZoneUrl tld), .getReq (cfRecordUrl zone_id tld)],
         [cfTag d], .panicMsg unwrapNonePanic⟩ := by
      rw [cfStep_decompose_ok srv psl ip d tld hd,
        cfZoneStage_found srv ip d tld zr zone_id hz hzlen hzid,
        cfRecordStage_noId srv ip tld zone_id rr p hr hrlen hgate hpr hid]
    exact ⟨by rw [hstep],
      by rw [cfUpdate_cons_panic srv psl ip d ds unwrapNonePanic
        (by rw [hstep])]⟩
  · intro srv psl ip d ds tld zr rr ur zone_id record_id p hd hz hzlen hzid
      hr hrlen hgate hpr hid hput hsn
    have hstep : cfStep srv psl ip d =
        ⟨[.getReq (cfZoneUrl tld), .getReq (cfRecordUrl zone_id tld),
          .putReq (cfPutUrl zone_id record_id)
            (cfBody record_id ip (cfRecordName tld) p)],
         [cfTag d], .panicMsg unwrapNonePanic⟩ := by
      rw [cfStep_decompose_ok srv psl ip d tld hd,
        cfZoneStage_found srv ip d tld zr zone_id hz hzlen hzid,
        cfRecordStage_found srv ip tld zone_id rr p record_id hr hrlen hgate
          hpr hid,
        cfUpdateStage_noSuccess srv ip zone_id record_id (cfRecordName tld) p
          ur hput hsn]
    exact ⟨by rw [hstep],
      by rw [cfUpdate_cons_panic srv psl ip d ds unwrapNonePanic
        (by rw [hstep])]⟩

/-- C10 witness: a matched type-`A` record lacking the `proxied` field makes
the concrete run panic and the loop abort. -/
theorem C10_unwrap_panics_witness :
    (cfStep srvNoProx pslDemo "1.2.3.4" "example.com").exit =
      .panicMsg unwrapNonePanic
    ∧ (cfUpdate srvNoProx pslDemo "1.2.3.4" ["example.com"]).result =
        .panicked unwrapNonePanic :=
  C10_unwrap_panics.2.1 srvNoProx pslDemo "1.2.3.4" "example.com" []
    tldExCom (.obj [("result", .arr [recObjNoProx])])
    (.obj [("result", .arr [recObjNoProx])]) "rid4" rfl rfl (by decide) rfl
    rfl (by decide) rfl rfl

end Dnsupdate
